import Mathlib

/-!
Verification of the faasmctl batch-submission client core.

Shallow embedding of:
- `src/faasmctl/util/batch.py` (map serializer, request builders)
- `src/faasmctl/util/invoke.py` (submission client and poll engine)

Modelling conventions:
- A Python string is a `List Char`; `len(s)` is the list length
  (character count) and `s.encode('utf-8')` is `strBytes s`.
- Bytes are `Nat` (each < 256); `struct.pack('I', n)` is `pack4 n`
  (little-endian uint32 of `n % 2^32`; Python raises for `n ≥ 2^32`,
  theorems about length fields restrict to that range where it matters).
- A Python (ordered) dict of strings is a `List (Str × Str)` in
  iteration order.
- The HTTP endpoint is a function `Nat → Response` giving the response
  to the n-th POST issued by the call; traces of wire operations and
  sleeps are recorded as `List Event` (sleep durations in tenths of a
  second: 0.5 s = 5, 2 s = 20).
- Exceptions are modelled by the `RunResult.raise` / `BuildResult`
  error constructors; the unbounded `while True` poll loops take fuel,
  with `RunResult.outOfFuel` when it runs out.
-/

namespace Faasmctl

/-! ## Map serializer (src/faasmctl/util/batch.py, lines 7-20) -/

/-- A Python string, as its character sequence. -/
abbrev Str := List Char

/-- An ordered string-to-string mapping (Python dict), in iteration order. -/
abbrev MapData := List (Str × Str)

/-- UTF-8 encoding of one character (`str.encode('utf-8')`, per character). -/
def utf8Bytes (c : Char) : List Nat :=
  let n := c.toNat
  if n < 128 then [n]
  else if n < 2048 then [192 + n / 64, 128 + n % 64]
  else if n < 65536 then [224 + n / 4096, 128 + n / 64 % 64, 128 + n % 64]
  else [240 + n / 262144, 128 + n / 4096 % 64, 128 + n / 64 % 64, 128 + n % 64]

/-- UTF-8 encoding of a whole string: `string.encode('utf-8')`. -/
def strBytes (s : Str) : List Nat := (s.map utf8Bytes).flatten

/-- Number of UTF-8 encoded bytes of a string. -/
def byteLen (s : Str) : Nat := (strBytes s).length

/-- Model of `struct.pack('I', n)`: little-endian 4-byte encoding of `n % 2^32`. -/
def pack4 (n : Nat) : List Nat :=
  [n % 256, n / 256 % 256, n / 65536 % 256, n / 16777216 % 256]

/-- Model of `serialize_string(buffer, string)`: appends `struct.pack('I', len(string))`
(the CHARACTER count) then the UTF-8 bytes of the string. -/
def serialize_string (buffer : List Nat) (s : Str) : List Nat :=
  buffer ++ pack4 s.length ++ strBytes s

/-- Model of `serialize_map(map_data)`: a uint32 pair count, then each key and value
via `serialize_string`, accumulated into one buffer. -/
def serialize_map (m : MapData) : List Nat :=
  m.foldl (fun buffer kv => serialize_string (serialize_string buffer kv.1) kv.2)
    (pack4 m.length)

/-! ## Decoder, modelled from the spec

The repository has no decoder; spec section 4.2 says `decode(bytes) -> mapping`
"is the structural inverse and must reconstruct exactly the original key/value
pairs and their order". -/

/-- Read a little-endian uint32 from the head of a byte list. -/
def readU32 (bs : List Nat) : Option (Nat × List Nat) :=
  match bs with
  | b0 :: b1 :: b2 :: b3 :: rest => some (b0 + 256 * (b1 + 256 * (b2 + 256 * b3)), rest)
  | _ => none

/-- Take exactly `n` bytes from the head of a byte list. -/
def readN : Nat → List Nat → Option (List Nat × List Nat)
  | 0, bs => some ([], bs)
  | _ + 1, [] => none
  | n + 1, b :: bs =>
    match readN n bs with
    | some (xs, rest) => some (b :: xs, rest)
    | none => none

/-- Value of a UTF-8 continuation byte, if it is one. -/
def contVal (b : Nat) : Option Nat :=
  if 128 ≤ b ∧ b < 192 then some (b - 128) else none

/-- UTF-8 decoding of a byte list back to characters (fuel-indexed; any
fuel at least the list length suffices). Fails on truncated or stray
sequences. -/
def utf8Decode : Nat → List Nat → Option Str
  | _, [] => some []
  | 0, _ :: _ => none
  | fuel + 1, b :: bs =>
    if b < 128 then
      (utf8Decode fuel bs).map (fun s => Char.ofNat b :: s)
    else if b < 192 then none
    else if b < 224 then
      match bs with
      | b1 :: bs1 =>
        match contVal b1 with
        | some v1 => (utf8Decode fuel bs1).map (fun s => Char.ofNat ((b - 192) * 64 + v1) :: s)
        | none => none
      | [] => none
    else if b < 240 then
      match bs with
      | b1 :: b2 :: bs1 =>
        match contVal b1, contVal b2 with
        | some v1, some v2 =>
          (utf8Decode fuel bs1).map
            (fun s => Char.ofNat (((b - 224) * 64 + v1) * 64 + v2) :: s)
        | _, _ => none
      | _ => none
    else
      match bs with
      | b1 :: b2 :: b3 :: bs1 =>
        match contVal b1, contVal b2, contVal b3 with
        | some v1, some v2, some v3 =>
          (utf8Decode fuel bs1).map
            (fun s => Char.ofNat ((((b - 240) * 64 + v1) * 64 + v2) * 64 + v3) :: s)
        | _, _, _ => none
      | _ => none

/-- Modelled from the spec: read one length-prefixed string
(`[uint32 byteLen][bytes]`, lengths in encoded bytes per spec 4.2). -/
def readString (bs : List Nat) : Option (Str × List Nat) :=
  (readU32 bs).bind fun p =>
    (readN p.1 p.2).bind fun q =>
      (utf8Decode q.1.length q.1).bind fun s => some (s, q.2)

/-- Modelled from the spec: read `n` key/value entries. -/
def decodeEntries : Nat → List Nat → Option (MapData × List Nat)
  | 0, bs => some ([], bs)
  | n + 1, bs =>
    (readString bs).bind fun k =>
      (readString k.2).bind fun v =>
        (decodeEntries n v.2).bind fun m => some ((k.1, v.1) :: m.1, m.2)

/-- Modelled from the spec: `decode(bytes) -> mapping`, the structural
inverse of the section 4.2 layout. Requires all input consumed. -/
def deserialize_map (bs : List Nat) : Option MapData :=
  (readU32 bs).bind fun p =>
    match decodeEntries p.1 p.2 with
    | some (m, []) => some m
    | _ => none

/-- Modelled from the spec, section 4.2's layout words with lengths
"measured in encoded bytes": `[uint32 pairCount]` then per entry
`[uint32 keyByteLen][key bytes][uint32 valueByteLen][value bytes]`. -/
def spec_layout_bytelen (m : MapData) : List Nat :=
  pack4 m.length ++
    (m.map (fun kv =>
      pack4 (byteLen kv.1) ++ strBytes kv.1 ++ pack4 (byteLen kv.2) ++ strBytes kv.2)).flatten

/-- One entry's bytes with length fields holding the CHARACTER count, which
is what the source's `struct.pack('I', len(string))` actually writes. -/
def entryBytes (kv : Str × Str) : List Nat :=
  pack4 kv.1.length ++ strBytes kv.1 ++ pack4 kv.2.length ++ strBytes kv.2

/-- The section 4.2 layout with character-count length fields. -/
def spec_layout_charlen (m : MapData) : List Nat :=
  pack4 m.length ++ (m.map entryBytes).flatten

/-- Sum over entries of `4 + byteLen key + 4 + byteLen value`. -/
def sumEntryLen (m : MapData) : Nat :=
  m.foldr (fun kv acc => 4 + byteLen kv.1 + 4 + byteLen kv.2 + acc) 0

/-- A string is ASCII when every character is below 128 (then its byte
count equals its character count). -/
def allAscii (s : Str) : Bool := s.all (fun c => c.toNat < 128)

/-! ## Data model (protobuf messages, spec section 3) -/

/-- One invocation descriptor (`faabric_pb2.Message`), restricted to the
fields this core reads or writes. Protobuf scalar defaults are 0 / "". -/
structure Message where
  user : String
  function : String
  mpi_world_size : Option Nat
  groupIdx : Nat
  executedHost : String
  inputData : List Nat
  chainedId : Nat
  appId : Nat
  deriving DecidableEq

instance : Inhabited Message :=
  ⟨{ user := "", function := "", mpi_world_size := none, groupIdx := 0,
     executedHost := "", inputData := [], chainedId := 0, appId := 0 }⟩

/-- The message template dict (`msg_dict`): the fields the client reads
from it. `mpi_world_size` is `none` when the key is absent. -/
structure MsgTemplate where
  user : String
  function : String
  mpi_world_size : Option Nat
  deriving DecidableEq

/-- The request template dict (`req_dict`): in this repository its callers
pass `{"user": ..., "function": ...}` (no messages), so it contributes
only those scalar fields to the parsed `BatchExecuteRequest`. -/
structure ReqTemplate where
  user : String
  function : String
  deriving DecidableEq

/-- Model of `faabric_pb2.BatchExecuteRequest`: template scalars, an `appId` and the
ordered message sequence. -/
structure BatchExecuteRequest where
  user : String
  function : String
  appId : Nat
  messages : List Message
  deriving DecidableEq

/-- Modelled from the spec: `message_factory(msg_dict, app_id)` is not under
src/ (it lives in `faasmctl.util.message`); spec section 4.3 says the builder
"copies `messageTemplate` into `count` messages bound to that `appId`". It
copies the template's fields and binds the appId; other fields keep their
protobuf defaults. -/
def message_factory (msg_dict : MsgTemplate) (app_id : Nat) : Message :=
  { user := msg_dict.user, function := msg_dict.function,
    mpi_world_size := msg_dict.mpi_world_size, groupIdx := 0,
    executedHost := "", inputData := [], chainedId := 0, appId := app_id }

/-! ## Request builders (src/faasmctl/util/batch.py, lines 23-49) -/

/-- Model of `batch_exec_factory(req_dict, msg_dict, num_messages)`. `generate_gid()`
(not under src/; spec section 4.1: a fresh random identifier) is injected as
the `gid` argument. -/
def batch_exec_factory (req_dict : ReqTemplate) (msg_dict : MsgTemplate)
    (num_messages : Nat) (gid : Nat) : BatchExecuteRequest :=
  { user := req_dict.user, function := req_dict.function, appId := gid,
    messages := List.replicate num_messages (message_factory msg_dict gid) }

/-- Outcome of `batch_exec_input_factory`: Python either returns the built
request, fails an `assert`, or raises `TypeError` (subscripting `None`). -/
inductive BuildResult
  | ok (req : BatchExecuteRequest)
  | assertFail (msg : String)
  | typeError
  deriving DecidableEq

/-- The `for i in range(num_messages)` loop of `batch_exec_input_factory`,
after its asserts: appends `num_messages` template copies, sets `inputData`
from `serialize_map` when `input_list` is supplied, and UNCONDITIONALLY
executes `req.messages[i].chainedId = chained_id_list[i]` (source line 47
is outside the `if chained_id_list is not None` guard), so with
`chained_id_list = None` and `num_messages ≥ 1` the first iteration raises
`TypeError: 'NoneType' object is not subscriptable`. -/
def batchInputLoop (req_dict : ReqTemplate) (app_id : Nat) (msg_dict : MsgTemplate)
    (num_messages : Nat) (input_list : Option (List MapData))
    (chained_id_list : Option (List Nat)) : BuildResult :=
  match chained_id_list with
  | some cl =>
    if cl.length ≠ num_messages then
      .assertFail "Number of chainedIds should match number of messages"
    else
      .ok { user := req_dict.user, function := req_dict.function, appId := app_id,
            messages := (List.range num_messages).map (fun i =>
              let m := message_factory msg_dict app_id
              let m := match input_list with
                       | some l => { m with inputData := serialize_map (l.getD i []) }
                       | none => m
              { m with chainedId := cl.getD i 0 }) }
  | none =>
    match num_messages with
    | 0 =>
      .ok { user := req_dict.user, function := req_dict.function, appId := app_id,
            messages := [] }
    | _ + 1 => .typeError

/-- Model of `batch_exec_input_factory(req_dict, app_id, msg_dict,
num_messages, input_list, chained_id_list)`: the two length asserts run
first (note the source checks `chained_id_list` length under its own
`is not None` guard before the loop), then the loop runs. -/
def batch_exec_input_factory (req_dict : ReqTemplate) (app_id : Nat)
    (msg_dict : MsgTemplate) (num_messages : Nat)
    (input_list : Option (List MapData)) (chained_id_list : Option (List Nat)) :
    BuildResult :=
  match input_list with
  | some l =>
    if l.length ≠ num_messages then
      .assertFail "Number of input data should match number of messages"
    else batchInputLoop req_dict app_id msg_dict num_messages input_list chained_id_list
  | none => batchInputLoop req_dict app_id msg_dict num_messages input_list chained_id_list

/-! ## Wire model (src/faasmctl/util/invoke.py) -/

/-- The result-tracking status (`faabric_pb2.BatchExecuteRequestStatus`),
restricted to the fields this core reads or writes. -/
structure BerStatus where
  appId : Nat
  finished : Bool
  expectedNumMessages : Nat
  deriving DecidableEq

/-- An HTTP response body. A real body is text; `.status st` stands for a
body whose text parses (`google.protobuf.json_format.Parse`) as a
`BatchExecuteRequestStatus`, `.txt s` for one that does not (the sentinel
comparisons `response.text == "..."` compare against `.txt` bodies). -/
inductive RespBody
  | txt (s : String)
  | status (st : BerStatus)
  deriving DecidableEq

/-- An HTTP response, as the client observes it. -/
structure Response where
  status_code : Nat
  body : RespBody
  deriving DecidableEq

/-- Model of `Parse(response.text, BatchExecuteRequestStatus(), True)`: succeeds only
on a body that is a status JSON; on plain text Python raises. -/
def parseBer : RespBody → Option BerStatus
  | .txt _ => none
  | .status st => some st

/-- An observable action of one client call: a wire POST (with the
operation and its payload where a claim needs it) or a sleep (duration in
tenths of a second). -/
inductive Event
  | postExec
  | postPreload (req : BatchExecuteRequest)
  | postStatus (query : BerStatus)
  | sleep (deciseconds : Nat)
  deriving DecidableEq

/-- Terminal outcome of a client call. `raise e` models a propagating
Python exception; `outOfFuel` only arises when the fuel bounding the
unbounded `while True` loop runs out. -/
inductive RunResult
  | ok (st : BerStatus)
  | raise (e : String)
  | outOfFuel
  deriving DecidableEq

/-- The admission-retry sentinel check:
`response.status_code == 500 and response.text == "No available hosts"`. -/
def isNoHosts (r : Response) : Prop :=
  r.status_code = 500 ∧ r.body = .txt "No available hosts"

instance (r : Response) : Decidable (isNoHosts r) := by
  unfold isNoHosts; infer_instance

/-- The phase-1 `for i in range(num_retries)` loop of `invoke_and_await` /
`invoke_without_wait`: POST, and on the "No available hosts" sentinel sleep
0.5 s and retry; otherwise stop. Returns the last response, the index of
the next POST, and the event trace. (The `rem = 0` base case is dead code:
both call sites pass a positive retry count.) -/
def admissionLoop (server : Nat → Response) : Nat → Nat → Response × Nat × List Event
  | i, 0 => (server i, i, [])
  | i, rem + 1 =>
    let r := server i
    if isNoHosts r then
      if rem = 0 then (r, i + 1, [.postExec, .sleep 5])
      else
        let a := admissionLoop server (i + 1) rem
        (a.1, a.2.1, .postExec :: .sleep 5 :: a.2.2)
    else (r, i + 1, [.postExec])

/-- Trace of an admission phase that hits the sentinel `k` times and then
stops: `k` POST+sleep pairs followed by the final POST. -/
def retryTrace : Nat → List Event
  | 0 => [.postExec]
  | k + 1 => .postExec :: .sleep 5 :: retryTrace k

/-- The phase-2 `while True` loop of `invoke_and_await` (lines 133-156):
sleep 2 s, POST the status query `q` (built once, before the loop), then:
non-200 with the "App not registered in results" body → continue; other
non-200 → break returning the last-seen status `cur`; 200 → parse, break
if finished else continue with the parsed status as last-seen. -/
def pollLoopAwait (server : Nat → Response) (q : BerStatus) (cur : BerStatus)
    (i : Nat) : Nat → RunResult × List Event
  | 0 => (.outOfFuel, [])
  | fuel + 1 =>
    let r := server i
    if r.status_code ≠ 200 then
      if r.body = .txt "App not registered in results" then
        let p := pollLoopAwait server q cur (i + 1) fuel
        (p.1, .sleep 20 :: .postStatus q :: p.2)
      else (.ok cur, [.sleep 20, .postStatus q])
    else
      match parseBer r.body with
      | none => (.raise "ParseError", [.sleep 20, .postStatus q])
      | some st =>
        if st.finished then (.ok st, [.sleep 20, .postStatus q])
        else
          let p := pollLoopAwait server q st (i + 1) fuel
          (p.1, .sleep 20 :: .postStatus q :: p.2)

/-- Model of `invoke_and_await(url, json_msg, expected_num_messages)` (lines 97-156):
phase-1 admission with `num_retries = 10`, then the response is parsed
(regardless of its status code), `expectedNumMessages` is overwritten with
the client-computed value, the status query is built from that status, and
phase 2 polls with `poll_period = 2`. `i0` is the index of the call's first
POST; `fuel` bounds the unbounded phase-2 loop. -/
def invoke_and_await (server : Nat → Response) (i0 : Nat)
    (expected_num_messages : Nat) (fuel : Nat) : RunResult × List Event :=
  let a := admissionLoop server i0 10
  match parseBer a.1.body with
  | none => (.raise "ParseError", a.2.2)
  | some st0 =>
    let q : BerStatus := { st0 with expectedNumMessages := expected_num_messages }
    let p := pollLoopAwait server q q a.2.1 fuel
    (p.1, a.2.2 ++ p.2)

/-- Model of `invoke_without_wait(url, json_msg)` (lines 195-216): the same admission
loop with `num_retries = 100` and no polling; Python returns nothing, the
model exposes the final response and the trace. -/
def invoke_without_wait (server : Nat → Response) (i0 : Nat) :
    Response × List Event :=
  let a := admissionLoop server i0 100
  (a.1, a.2.2)

/-- The status-query payload of `query_result`: `ParseDict({"appId": app_id},
BatchExecuteRequestStatus())`, all other fields at protobuf defaults. -/
def queryMsg (app_id : Nat) : BerStatus :=
  { appId := app_id, finished := false, expectedNumMessages := 0 }

/-- The `while True` loop of `query_result` (lines 229-256): sleep 0.5 s,
POST the appId-only query, classify like `pollLoopAwait`. `ber_status` is
only assigned inside the 200 branch, so breaking on a non-200, non-sentinel
response before any 200 was seen reaches `return ber_status` with the
variable unbound: Python raises `UnboundLocalError`. `cur` is `none` until
the first successful parse. -/
def pollLoopQuery (server : Nat → Response) (app_id : Nat)
    (cur : Option BerStatus) (i : Nat) : Nat → RunResult × List Event
  | 0 => (.outOfFuel, [])
  | fuel + 1 =>
    let r := server i
    if r.status_code ≠ 200 then
      if r.body = .txt "App not registered in results" then
        let p := pollLoopQuery server app_id cur (i + 1) fuel
        (p.1, .sleep 5 :: .postStatus (queryMsg app_id) :: p.2)
      else
        match cur with
        | some st => (.ok st, [.sleep 5, .postStatus (queryMsg app_id)])
        | none => (.raise "UnboundLocalError", [.sleep 5, .postStatus (queryMsg app_id)])
    else
      match parseBer r.body with
      | none => (.raise "ParseError", [.sleep 5, .postStatus (queryMsg app_id)])
      | some st =>
        if st.finished then (.ok st, [.sleep 5, .postStatus (queryMsg app_id)])
        else
          let p := pollLoopQuery server app_id (some st) (i + 1) fuel
          (p.1, .sleep 5 :: .postStatus (queryMsg app_id) :: p.2)

/-- Model of `query_result(app_id, url)` (lines 218-258): the standalone phase-2
completion query, with `poll_period = 0.5`. -/
def query_result (server : Nat → Response) (app_id : Nat) (fuel : Nat) :
    RunResult × List Event :=
  pollLoopQuery server app_id none 0 fuel

/-- The `for group_idx in range(len(req.messages))` placement loop of
`invoke_wasm` (lines 72-75): rebuilds the list with `groupIdx = i` and
`executedHost = host_list[i]`; Python raises `IndexError` (modelled as
`none`) when the message list is longer than the host list. -/
def setPlacements (msgs : List Message) (host_list : List String) :
    Option (List Message) :=
  if msgs.length ≤ host_list.length then
    some ((List.range msgs.length).map (fun i =>
      { msgs.getD i default with groupIdx := i, executedHost := host_list.getD i "" }))
  else none

/-- Model of `invoke_wasm(msg_dict, num_messages, req_dict, host_list)` (lines
15-94), with the fresh `generate_gid()` injected as `gid` and the endpoint
as `server`. When `host_list` is given: assert its length equals the
expected count (`mpi_world_size` if present, else `num_messages`), pad the
request's messages up to that count with template copies, set the
placement fields, POST `PRELOAD_SCHEDULING_DECISION` and raise
`RuntimeError` on any non-200 answer; then run `invoke_and_await` with the
next POST index. -/
def invoke_wasm (server : Nat → Response) (msg_dict : MsgTemplate)
    (num_messages : Nat) (req_dict : Option ReqTemplate) (gid : Nat)
    (host_list : Option (List String)) (fuel : Nat) : RunResult × List Event :=
  let rd := match req_dict with
            | some rd => rd
            | none => { user := msg_dict.user, function := msg_dict.function }
  let req := batch_exec_factory rd msg_dict num_messages gid
  let expected := match msg_dict.mpi_world_size with
                  | some w => w
                  | none => num_messages
  match host_list with
  | none => invoke_and_await server 0 expected fuel
  | some hl =>
    if hl.length ≠ expected then (.raise "AssertionError", [])
    else
      let msgs := req.messages ++
        List.replicate (expected - req.messages.length) (message_factory msg_dict req.appId)
      match setPlacements msgs hl with
      | none => (.raise "IndexError", [])
      | some msgs1 =>
        let preq := { req with messages := msgs1 }
        let r := server 0
        if r.status_code ≠ 200 then (.raise "RuntimeError", [.postPreload preq])
        else
          let p := invoke_and_await server 1 expected fuel
          (p.1, .postPreload preq :: p.2)

/-- The preloaded request `invoke_wasm` sends when the host-list path
succeeds: the padded message list with every message a template copy
carrying its `groupIdx` and pinned host. -/
def preloadRequest (rd : ReqTemplate) (msg_dict : MsgTemplate) (gid expected : Nat)
    (hl : List String) : BatchExecuteRequest :=
  { user := rd.user, function := rd.function, appId := gid,
    messages := (List.range expected).map (fun i =>
      { message_factory msg_dict gid with groupIdx := i, executedHost := hl.getD i "" }) }

/-! ## Concrete scenario inputs for counterexamples and witnesses -/

/-- U+00E9, a character whose UTF-8 encoding is two bytes. -/
def eAcute : Char := 'é'

/-- A mapping with a multi-byte key. -/
def exMapMulti : MapData := [([eAcute], [])]

/-- An ASCII mapping with an empty value and an empty key. -/
def exMapAscii : MapData := [(['a'], []), ([], ['b', 'c'])]

def rdEx : ReqTemplate := { user := "alice", function := "work" }

def mdEx : MsgTemplate := { user := "alice", function := "work", mpi_world_size := none }

def mdMpi : MsgTemplate := { user := "alice", function := "work", mpi_world_size := some 2 }

/-- Admission succeeds at once; first status poll unfinished, second poll
finished with a server-supplied `expectedNumMessages = 99`. -/
def srvC1 : Nat → Response := fun n =>
  if n = 0 then ⟨200, .status ⟨42, false, 0⟩⟩
  else if n = 1 then ⟨200, .status ⟨42, false, 7⟩⟩
  else ⟨200, .status ⟨42, true, 99⟩⟩

/-- The "No available hosts" sentinel twice, then admission succeeds. -/
def srvRetry : Nat → Response := fun n =>
  if n < 2 then ⟨500, .txt "No available hosts"⟩ else ⟨200, .status ⟨41, false, 6⟩⟩

/-- Every POST fails with a non-sentinel transport error. -/
def srvBoom : Nat → Response := fun _ => ⟨503, .txt "boom"⟩

/-- Admission succeeds, one unfinished poll, then a transport error. -/
def srvStale : Nat → Response := fun n =>
  if n = 0 then ⟨200, .status ⟨42, false, 0⟩⟩
  else if n = 1 then ⟨200, .status ⟨42, false, 5⟩⟩
  else ⟨503, .txt "boom"⟩

/-- One unfinished status response, then a transport error. -/
def srvQStale : Nat → Response := fun n =>
  if n = 0 then ⟨200, .status ⟨7, false, 1⟩⟩ else ⟨503, .txt "boom"⟩

/-- Admission succeeds; first poll hits the "App not registered in
results" sentinel; second poll finishes. -/
def srvNotReg : Nat → Response := fun n =>
  if n = 0 then ⟨200, .status ⟨42, false, 0⟩⟩
  else if n = 1 then ⟨404, .txt "App not registered in results"⟩
  else ⟨200, .status ⟨42, true, 3⟩⟩

/-- First query hits the "App not registered in results" sentinel, then a
finished status. -/
def srvQNotReg : Nat → Response := fun n =>
  if n = 0 then ⟨404, .txt "App not registered in results"⟩
  else ⟨200, .status ⟨7, true, 2⟩⟩

/-- Every POST answers 200 with a finished status. -/
def srvOk : Nat → Response := fun _ => ⟨200, .status ⟨42, true, 2⟩⟩

/-- Every POST answers a non-200 non-sentinel failure. -/
def srvDown : Nat → Response := fun _ => ⟨500, .txt "Internal error"⟩

/-! ## Serializer lemmas -/

theorem serialize_foldl (m : MapData) (buffer : List Nat) :
    m.foldl (fun b kv => serialize_string (serialize_string b kv.1) kv.2) buffer =
      buffer ++ (m.map entryBytes).flatten := by
  induction m generalizing buffer with
  | nil => simp
  | cons kv t ih =>
    rw [List.foldl_cons, ih]
    simp [serialize_string, entryBytes, List.append_assoc]

/-- The source encoding in explicit-layout form (char-count length fields). -/
theorem serialize_map_eq_charlen (m : MapData) :
    serialize_map m = spec_layout_charlen m := by
  unfold serialize_map spec_layout_charlen
  exact serialize_foldl m (pack4 m.length)

theorem entryBytes_length (kv : Str × Str) :
    (entryBytes kv).length = 4 + byteLen kv.1 + 4 + byteLen kv.2 := by
  simp [entryBytes, pack4, byteLen]
  omega

theorem flatten_entry_length (m : MapData) :
    ((m.map entryBytes).flatten).length = sumEntryLen m := by
  induction m with
  | nil => simp [sumEntryLen]
  | cons kv t ih =>
    simp only [List.map_cons, List.flatten_cons, List.length_append, ih,
      entryBytes_length, sumEntryLen, List.foldr_cons]

theorem ascii_utf8Bytes (c : Char) (h : c.toNat < 128) : utf8Bytes c = [c.toNat] := by
  simp [utf8Bytes, h]

theorem ascii_strBytes (s : Str) (h : allAscii s = true) :
    strBytes s = s.map Char.toNat := by
  induction s with
  | nil => simp [strBytes]
  | cons c t ih =>
    simp only [allAscii, List.all_cons, Bool.and_eq_true, decide_eq_true_eq] at h
    have ht : strBytes t = t.map Char.toNat := ih (by simpa [allAscii] using h.2)
    calc strBytes (c :: t) = utf8Bytes c ++ strBytes t := by simp [strBytes]
    _ = [c.toNat] ++ t.map Char.toNat := by rw [ascii_utf8Bytes c h.1, ht]
    _ = (c :: t).map Char.toNat := by simp

theorem utf8Decode_ascii (s : Str) (fuel : Nat) (h : allAscii s = true)
    (hf : s.length ≤ fuel) : utf8Decode fuel (s.map Char.toNat) = some s := by
  induction s generalizing fuel with
  | nil => simp [utf8Decode]
  | cons c t ih =>
    cases fuel with
    | zero => simp at hf
    | succ f =>
      simp only [allAscii, List.all_cons, Bool.and_eq_true, decide_eq_true_eq] at h
      simp only [List.map_cons, utf8Decode, h.1, if_pos]
      rw [ih f (by simpa [allAscii] using h.2) (by simpa using hf)]
      simp [Char.ofNat_toNat]

theorem readU32_pack4 (n : Nat) (rest : List Nat) (h : n < 2 ^ 32) :
    readU32 (pack4 n ++ rest) = some (n, rest) := by
  have h32 : n % 256 + 256 * (n / 256 % 256 + 256 * (n / 65536 % 256 + 256 * (n / 16777216 % 256))) = n := by
    omega
  simp only [pack4, List.cons_append, List.nil_append, readU32, h32]

theorem readN_exact (xs rest : List Nat) : readN xs.length (xs ++ rest) = some (xs, rest) := by
  induction xs with
  | nil => simp [readN]
  | cons b t ih => simp [readN, ih]

theorem readString_encode (k : Str) (rest : List Nat) (hA : allAscii k = true)
    (hlen : k.length < 2 ^ 32) :
    readString (pack4 k.length ++ (strBytes k ++ rest)) = some (k, rest) := by
  unfold readString
  rw [readU32_pack4 k.length (strBytes k ++ rest) hlen, Option.some_bind]
  rw [ascii_strBytes k hA]
  have h1 : readN k.length (k.map Char.toNat ++ rest) = some (k.map Char.toNat, rest) := by
    have := readN_exact (k.map Char.toNat) rest
    simpa using this
  rw [h1, Option.some_bind]
  rw [utf8Decode_ascii k (k.map Char.toNat).length hA (by simp), Option.some_bind]

theorem decodeEntries_encode (m : MapData) (rest : List Nat)
    (hA : ∀ kv ∈ m, allAscii kv.1 = true ∧ allAscii kv.2 = true)
    (hl : ∀ kv ∈ m, kv.1.length < 2 ^ 32 ∧ kv.2.length < 2 ^ 32) :
    decodeEntries m.length ((m.map entryBytes).flatten ++ rest) = some (m, rest) := by
  induction m with
  | nil => simp [decodeEntries]
  | cons kv t ih =>
    have hkv := hA kv (by simp)
    have hkvl := hl kv (by simp)
    simp only [List.map_cons, List.flatten_cons, List.length_cons, decodeEntries,
      entryBytes, List.append_assoc]
    rw [readString_encode kv.1 _ hkv.1 hkvl.1, Option.some_bind]
    rw [readString_encode kv.2 _ hkv.2 hkvl.2, Option.some_bind]
    rw [ih (fun x hx => hA x (by simp [hx])) (fun x hx => hl x (by simp [hx])),
      Option.some_bind]

/-! ## Claim theorems: the map serializer (C2, C3) -/

/-- C2 counterexample: the claimed round-trip `decode(encode(m)) == m`
fails on a mapping whose key contains multi-byte text, because the source
writes the CHARACTER count as the length field while the spec's decoder
consumes that many BYTES: the single byte taken for the key is a truncated
UTF-8 sequence and decoding fails. -/
theorem C2_counterexample :
    deserialize_map (serialize_map exMapMulti) ≠ some exMapMulti := by decide

/-- C2 (amended): for EVERY mapping — multi-byte text included — the total
length equation `len(encode(m)) = 4 + Σ (4 + byteLen k + 4 + byteLen v)`
holds unconditionally; and for mappings whose keys and values are ASCII
(character count equals byte count) and whose entry count and string
lengths fit in a uint32, `decode(encode(m)) = m`. -/
theorem C2_theorem (m : MapData) :
    (serialize_map m).length = 4 + sumEntryLen m ∧
      (m.length < 2 ^ 32 →
       (∀ kv ∈ m, allAscii kv.1 = true ∧ allAscii kv.2 = true) →
       (∀ kv ∈ m, kv.1.length < 2 ^ 32 ∧ kv.2.length < 2 ^ 32) →
       deserialize_map (serialize_map m) = some m) := by
  constructor
  · rw [serialize_map_eq_charlen]
    unfold spec_layout_charlen
    rw [List.length_append, flatten_entry_length]
    simp [pack4]
  · intro hc hA hl
    rw [serialize_map_eq_charlen]
    unfold spec_layout_charlen deserialize_map
    rw [readU32_pack4 m.length _ hc, Option.some_bind]
    have hde := decodeEntries_encode m [] hA hl
    simp only [List.append_nil] at hde
    rw [hde]

/-- C2 witness: the length equation at the concrete multi-byte mapping
(the one that breaks the round-trip), and the round-trip plus length
equation at a concrete ASCII mapping with an empty key and an empty
value. -/
theorem C2_witness :
    (serialize_map exMapMulti).length = 4 + sumEntryLen exMapMulti ∧
      deserialize_map (serialize_map exMapAscii) = some exMapAscii ∧
      (serialize_map exMapAscii).length = 4 + sumEntryLen exMapAscii :=
  ⟨(C2_theorem exMapMulti).1,
   (C2_theorem exMapAscii).2 (by decide) (by decide) (by decide),
   (C2_theorem exMapAscii).1⟩

/-- C3 counterexample: the encoding does NOT follow the claimed layout with
byte-count length fields; on a mapping with a multi-byte key the length
field holds 1 (the character count) where the claim requires 2 (the byte
count). -/
theorem C3_counterexample :
    serialize_map exMapMulti ≠ spec_layout_bytelen exMapMulti := by decide

/-- C3 (amended): the encoding is exactly `[uint32 pairCount]` followed,
per entry in iteration order, by `[uint32 len][key bytes][uint32 len][value
bytes]` with little-endian uint32 length fields and no padding or
terminators — but each length field holds the string's CHARACTER count,
not its UTF-8 byte count. -/
theorem C3_theorem (m : MapData) : serialize_map m = spec_layout_charlen m :=
  serialize_map_eq_charlen m

/-! ## Poll-engine lemmas -/

theorem admissionLoop_stop (server : Nat → Response) (i rem : Nat)
    (h : ¬ isNoHosts (server i)) :
    admissionLoop server i (rem + 1) = (server i, i + 1, [.postExec]) := by
  simp [admissionLoop, h]

theorem admissionLoop_retries (server : Nat → Response) (k : Nat) :
    ∀ i rem, k < rem → (∀ j, j < k → isNoHosts (server (i + j))) →
      ¬ isNoHosts (server (i + k)) →
      admissionLoop server i rem = (server (i + k), i + k + 1, retryTrace k) := by
  induction k with
  | zero =>
    intro i rem hk hs hlast
    cases rem with
    | zero => omega
    | succ r =>
      rw [admissionLoop_stop server i r (by simpa using hlast)]
      simp [retryTrace]
  | succ k ih =>
    intro i rem hk hs hlast
    cases rem with
    | zero => omega
    | succ r =>
      have h0 : isNoHosts (server i) := by simpa using hs 0 (by omega)
      have hr : r ≠ 0 := by omega
      have hrec := ih (i + 1) r (by omega)
        (fun j hj => by
          have := hs (j + 1) (by omega)
          simpa [Nat.add_assoc, Nat.add_comm 1 j] using this)
        (by
          have : i + 1 + k = i + (k + 1) := by omega
          rw [this]; exact hlast)
      simp only [admissionLoop, h0, if_pos, hr, if_neg, hrec, retryTrace]
      have h1 : i + 1 + k = i + (k + 1) := by omega
      simp [h1]

theorem pollLoopAwait_finished (server : Nat → Response) (q cur : BerStatus)
    (i fuel : Nat) (st : BerStatus) (h : server i = ⟨200, .status st⟩)
    (hf : st.finished = true) :
    pollLoopAwait server q cur i (fuel + 1) = (.ok st, [.sleep 20, .postStatus q]) := by
  simp [pollLoopAwait, h, parseBer, hf]

theorem pollLoopAwait_unfinished (server : Nat → Response) (q cur : BerStatus)
    (i fuel : Nat) (st : BerStatus) (h : server i = ⟨200, .status st⟩)
    (hf : st.finished = false) :
    pollLoopAwait server q cur i (fuel + 1) =
      ((pollLoopAwait server q st (i + 1) fuel).1,
       .sleep 20 :: .postStatus q :: (pollLoopAwait server q st (i + 1) fuel).2) := by
  simp [pollLoopAwait, h, parseBer, hf]

theorem pollLoopAwait_sentinel (server : Nat → Response) (q cur : BerStatus)
    (i fuel : Nat) (hc : (server i).status_code ≠ 200)
    (hb : (server i).body = .txt "App not registered in results") :
    pollLoopAwait server q cur i (fuel + 1) =
      ((pollLoopAwait server q cur (i + 1) fuel).1,
       .sleep 20 :: .postStatus q :: (pollLoopAwait server q cur (i + 1) fuel).2) := by
  simp [pollLoopAwait, hc, hb]

theorem pollLoopAwait_break (server : Nat → Response) (q cur : BerStatus)
    (i fuel : Nat) (hc : (server i).status_code ≠ 200)
    (hb : (server i).body ≠ .txt "App not registered in results") :
    pollLoopAwait server q cur i (fuel + 1) = (.ok cur, [.sleep 20, .postStatus q]) := by
  simp [pollLoopAwait, hc, hb]

theorem pollLoopQuery_finished (server : Nat → Response) (app_id : Nat)
    (cur : Option BerStatus) (i fuel : Nat) (st : BerStatus)
    (h : server i = ⟨200, .status st⟩) (hf : st.finished = true) :
    pollLoopQuery server app_id cur i (fuel + 1) =
      (.ok st, [.sleep 5, .postStatus (queryMsg app_id)]) := by
  simp [pollLoopQuery, h, parseBer, hf]

theorem pollLoopQuery_unfinished (server : Nat → Response) (app_id : Nat)
    (cur : Option BerStatus) (i fuel : Nat) (st : BerStatus)
    (h : server i = ⟨200, .status st⟩) (hf : st.finished = false) :
    pollLoopQuery server app_id cur i (fuel + 1) =
      ((pollLoopQuery server app_id (some st) (i + 1) fuel).1,
       .sleep 5 :: .postStatus (queryMsg app_id) ::
         (pollLoopQuery server app_id (some st) (i + 1) fuel).2) := by
  simp [pollLoopQuery, h, parseBer, hf]

theorem pollLoopQuery_sentinel (server : Nat → Response) (app_id : Nat)
    (cur : Option BerStatus) (i fuel : Nat) (hc : (server i).status_code ≠ 200)
    (hb : (server i).body = .txt "App not registered in results") :
    pollLoopQuery server app_id cur i (fuel + 1) =
      ((pollLoopQuery server app_id cur (i + 1) fuel).1,
       .sleep 5 :: .postStatus (queryMsg app_id) ::
         (pollLoopQuery server app_id cur (i + 1) fuel).2) := by
  simp [pollLoopQuery, hc, hb]

theorem pollLoopQuery_break_seen (server : Nat → Response) (app_id : Nat)
    (st : BerStatus) (i fuel : Nat) (hc : (server i).status_code ≠ 200)
    (hb : (server i).body ≠ .txt "App not registered in results") :
    pollLoopQuery server app_id (some st) i (fuel + 1) =
      (.ok st, [.sleep 5, .postStatus (queryMsg app_id)]) := by
  simp [pollLoopQuery, hc, hb]

theorem pollLoopQuery_break_unseen (server : Nat → Response) (app_id : Nat)
    (i fuel : Nat) (hc : (server i).status_code ≠ 200)
    (hb : (server i).body ≠ .txt "App not registered in results") :
    pollLoopQuery server app_id none i (fuel + 1) =
      (.raise "UnboundLocalError", [.sleep 5, .postStatus (queryMsg app_id)]) := by
  simp [pollLoopQuery, hc, hb]

/-- Phase 2 never issues a submission POST. -/
theorem pollLoopAwait_no_postExec (server : Nat → Response) :
    ∀ fuel q cur i, Event.postExec ∉ (pollLoopAwait server q cur i fuel).2 := by
  intro fuel
  induction fuel with
  | zero => intro q cur i; simp [pollLoopAwait]
  | succ f ih =>
    intro q cur i
    by_cases hc : (server i).status_code ≠ 200
    · by_cases hb : (server i).body = .txt "App not registered in results"
      · rw [pollLoopAwait_sentinel server q cur i f hc hb]
        simp [ih]
      · rw [pollLoopAwait_break server q cur i f hc hb]
        simp
    · simp only [pollLoopAwait, if_neg hc]
      cases hp : parseBer (server i).body with
      | none => simp
      | some st =>
        cases hf : st.finished with
        | true => simp [hf]
        | false => simp [hf, ih]

theorem retryTrace_count (k : Nat) :
    (retryTrace k).count Event.postExec = k + 1 := by
  induction k with
  | zero => simp [retryTrace]
  | succ k ih => simp [retryTrace, List.count_cons, ih]

/-! ## Claim theorems: the poll engine (C1, C5, C7, C8) -/

/-- C1 counterexample: admission succeeds at once and the status polls
return `finished=false` then `finished=true`, with the client-computed
`expectedNumMessages = 3`; the final response carries the server-supplied
value 99 and the call returns THAT status, not one carrying the client's
value — refuting "whose expectedNumMessages field equals the value the
client computed and supplied ... not any value supplied by the server". -/
theorem C1_counterexample :
    (invoke_and_await srvC1 0 3 2).1 = .ok ⟨42, true, 99⟩ ∧
      (invoke_and_await srvC1 0 3 2).1 ≠ .ok ⟨42, true, 3⟩ := by decide

/-- C1 (amended): with a successful admission and polls answering
`finished=false` then `finished=true`, the call issues exactly two status
polls, sleeps one poll period (2 s) before each, and returns the status
parsed from the second poll response as the server sent it; the
client-computed `expectedNumMessages` is carried in the status-query
payload POSTed to the server (`.postStatus` events), not forced onto the
returned status. -/
theorem C1_theorem (server : Nat → Response) (e f : Nat) (s0 s1 s2 : BerStatus)
    (h0 : server 0 = ⟨200, .status s0⟩) (h1 : server 1 = ⟨200, .status s1⟩)
    (hu : s1.finished = false) (h2 : server 2 = ⟨200, .status s2⟩)
    (hf2 : s2.finished = true) :
    invoke_and_await server 0 e (f + 1 + 1) =
      (.ok s2,
       [.postExec, .sleep 20, .postStatus { s0 with expectedNumMessages := e },
        .sleep 20, .postStatus { s0 with expectedNumMessages := e }]) := by
  have hns : ¬ isNoHosts (server 0) := by simp [isNoHosts, h0]
  have hadm := admissionLoop_stop server 0 9 hns
  simp only [invoke_and_await, show (10 : Nat) = 9 + 1 from rfl, hadm, h0, parseBer]
  rw [pollLoopAwait_unfinished server _ _ 1 (f + 1) s1 h1 hu]
  rw [pollLoopAwait_finished server _ _ 2 f s2 h2 hf2]
  simp

/-- C1 witness: the amended behavior at a concrete endpoint whose second
poll response carries `expectedNumMessages = 99`. -/
theorem C1_witness :
    invoke_and_await srvC1 0 3 2 =
      (.ok ⟨42, true, 99⟩,
       [.postExec, .sleep 20, .postStatus ⟨42, false, 3⟩,
        .sleep 20, .postStatus ⟨42, false, 3⟩]) :=
  C1_theorem srvC1 3 0 ⟨42, false, 0⟩ ⟨42, false, 7⟩ ⟨42, true, 99⟩
    (by decide) (by decide) (by decide) (by decide) (by decide)

/-- C5: an endpoint answering the HTTP 500 "No available hosts" sentinel
for the first `k` POSTs and succeeding on POST `k` causes exactly `k+1`
submission POSTs, each retry preceded by the 0.5 s backoff sleep, after
which the submission proceeds; the attempt bound is 10 inside
`invoke_and_await` (waiting entry point) and 100 inside
`invoke_without_wait` (fire-and-forget entry point). -/
theorem C5_theorem :
    (∀ (server : Nat → Response) (e f k : Nat) (s0 : BerStatus),
      k < 10 →
      (∀ j, j < k → server j = ⟨500, .txt "No available hosts"⟩) →
      server k = ⟨200, .status s0⟩ →
      admissionLoop server 0 10 = (⟨200, .status s0⟩, k + 1, retryTrace k) ∧
      (invoke_and_await server 0 e f).2.count Event.postExec = k + 1 ∧
      ∃ evs, (invoke_and_await server 0 e f).2 = retryTrace k ++ evs ∧
        evs.count Event.postExec = 0) ∧
    (∀ (server : Nat → Response) (k : Nat) (s0 : BerStatus),
      k < 100 →
      (∀ j, j < k → server j = ⟨500, .txt "No available hosts"⟩) →
      server k = ⟨200, .status s0⟩ →
      admissionLoop server 0 100 = (⟨200, .status s0⟩, k + 1, retryTrace k) ∧
      invoke_without_wait server 0 = (⟨200, .status s0⟩, retryTrace k)) := by
  have main : ∀ (server : Nat → Response) (k rem : Nat) (s0 : BerStatus),
      k < rem →
      (∀ j, j < k → server j = ⟨500, .txt "No available hosts"⟩) →
      server k = ⟨200, .status s0⟩ →
      admissionLoop server 0 rem = (⟨200, .status s0⟩, k + 1, retryTrace k) := by
    intro server k rem s0 hk hsent hsucc
    have hs : ∀ j, j < k → isNoHosts (server (0 + j)) := by
      intro j hj
      simp [isNoHosts, Nat.zero_add, hsent j hj]
    have hlast : ¬ isNoHosts (server (0 + k)) := by
      simp [isNoHosts, Nat.zero_add, hsucc]
    have hadm := admissionLoop_retries server k 0 rem hk hs hlast
    simpa [Nat.zero_add, hsucc] using hadm
  constructor
  · intro server e f k s0 hk hsent hsucc
    have hadm := main server k 10 s0 hk hsent hsucc
    have hpoll : ∀ q cur i, (pollLoopAwait server q cur i f).2.count Event.postExec = 0 :=
      fun q cur i => List.count_eq_zero.mpr (pollLoopAwait_no_postExec server f q cur i)
    have hIA : invoke_and_await server 0 e f =
        ((pollLoopAwait server { s0 with expectedNumMessages := e }
            { s0 with expectedNumMessages := e } (k + 1) f).1,
         retryTrace k ++ (pollLoopAwait server { s0 with expectedNumMessages := e }
            { s0 with expectedNumMessages := e } (k + 1) f).2) := by
      simp only [invoke_and_await, hadm, parseBer]
    refine ⟨hadm, ?_, ?_⟩
    · rw [hIA]
      simp [List.count_append, retryTrace_count, hpoll]
    · exact ⟨_, by rw [hIA], hpoll _ _ _⟩
  · intro server k s0 hk hsent hsucc
    have hadm := main server k 100 s0 hk hsent hsucc
    exact ⟨hadm, by simp only [invoke_without_wait, hadm]⟩

/-- C5 witness: the sentinel twice then success, through both entry
points. -/
theorem C5_witness :
    admissionLoop srvRetry 0 10 = (⟨200, .status ⟨41, false, 6⟩⟩, 3, retryTrace 2) ∧
    invoke_without_wait srvRetry 0 = (⟨200, .status ⟨41, false, 6⟩⟩, retryTrace 2) :=
  ⟨(C5_theorem.1 srvRetry 0 0 2 ⟨41, false, 6⟩ (by omega) (by decide) (by decide)).1,
   (C5_theorem.2 srvRetry 2 ⟨41, false, 6⟩ (by omega) (by decide) (by decide)).2⟩

/-- C7 counterexample: `query_result` against an endpoint whose first
status response is a non-success, non-sentinel failure does NOT return a
last-seen status — no status was ever seen, `return ber_status` reads an
unassigned local, and Python raises `UnboundLocalError`; refuting "the
call ... return[s] the last-seen, possibly unfinished, status, without
raising an exception". -/
theorem C7_counterexample :
    (query_result srvBoom 7 1).1 = .raise "UnboundLocalError" := by decide

/-- C7 (amended): a non-success response whose body is not the "App not
registered in results" sentinel makes the poll loop exit and the call
return the last-seen, possibly unfinished, status without an exception —
in `invoke_and_await` always (the admission response provides an initial
status), and in `query_result` provided at least one HTTP 200 status
response preceded the failure; when the failure arrives before any 200,
`query_result` instead raises (unbound local variable). -/
theorem C7_theorem :
    (∀ (server : Nat → Response) (e f : Nat) (s0 s1 : BerStatus) (t : String),
      server 0 = ⟨200, .status s0⟩ → server 1 = ⟨200, .status s1⟩ →
      s1.finished = false →
      (server 2).status_code ≠ 200 → (server 2).body = .txt t →
      t ≠ "App not registered in results" →
      invoke_and_await server 0 e (f + 1 + 1) =
        (.ok s1,
         [.postExec, .sleep 20, .postStatus { s0 with expectedNumMessages := e },
          .sleep 20, .postStatus { s0 with expectedNumMessages := e }])) ∧
    (∀ (server : Nat → Response) (a f : Nat) (u : BerStatus) (t : String),
      server 0 = ⟨200, .status u⟩ → u.finished = false →
      (server 1).status_code ≠ 200 → (server 1).body = .txt t →
      t ≠ "App not registered in results" →
      query_result server a (f + 1 + 1) =
        (.ok u, [.sleep 5, .postStatus (queryMsg a), .sleep 5, .postStatus (queryMsg a)])) ∧
    (∀ (server : Nat → Response) (a f : Nat) (t : String),
      (server 0).status_code ≠ 200 → (server 0).body = .txt t →
      t ≠ "App not registered in results" →
      query_result server a (f + 1) =
        (.raise "UnboundLocalError", [.sleep 5, .postStatus (queryMsg a)])) := by
  refine ⟨?_, ?_, ?_⟩
  · intro server e f s0 s1 t h0 h1 hu hc hb ht
    have hns : ¬ isNoHosts (server 0) := by simp [isNoHosts, h0]
    have hadm := admissionLoop_stop server 0 9 hns
    have hbody : (server 2).body ≠ .txt "App not registered in results" := by
      rw [hb]; simp [ht]
    simp only [invoke_and_await, show (10 : Nat) = 9 + 1 from rfl, hadm, h0, parseBer]
    rw [pollLoopAwait_unfinished server _ _ 1 (f + 1) s1 h1 hu]
    rw [pollLoopAwait_break server _ _ 2 f hc hbody]
    simp
  · intro server a f u t h0 hu hc hb ht
    have hbody : (server 1).body ≠ .txt "App not registered in results" := by
      rw [hb]; simp [ht]
    unfold query_result
    rw [pollLoopQuery_unfinished server a none 0 (f + 1) u h0 hu]
    rw [pollLoopQuery_break_seen server a u 1 f hc hbody]
  · intro server a f t hc hb ht
    have hbody : (server 0).body ≠ .txt "App not registered in results" := by
      rw [hb]; simp [ht]
    unfold query_result
    rw [pollLoopQuery_break_unseen server a 0 f hc hbody]

/-- C7 witness: the three amended behaviors at concrete endpoints. -/
theorem C7_witness :
    invoke_and_await srvStale 0 3 2 =
      (.ok ⟨42, false, 5⟩,
       [.postExec, .sleep 20, .postStatus ⟨42, false, 3⟩,
        .sleep 20, .postStatus ⟨42, false, 3⟩]) ∧
    query_result srvQStale 7 2 =
      (.ok ⟨7, false, 1⟩,
       [.sleep 5, .postStatus (queryMsg 7), .sleep 5, .postStatus (queryMsg 7)]) ∧
    query_result srvDown 7 1 =
      (.raise "UnboundLocalError", [.sleep 5, .postStatus (queryMsg 7)]) :=
  ⟨C7_theorem.1 srvStale 3 0 ⟨42, false, 0⟩ ⟨42, false, 5⟩ "boom"
     (by decide) (by decide) (by decide) (by decide) (by decide) (by decide),
   C7_theorem.2.1 srvQStale 7 0 ⟨7, false, 1⟩ "boom"
     (by decide) (by decide) (by decide) (by decide) (by decide),
   C7_theorem.2.2 srvDown 7 0 "Internal error"
     (by decide) (by decide) (by decide)⟩

/-- C8: a non-200 response whose body is exactly "App not registered in
results" is never terminal and never an error: both poll loops continue
exactly as for a not-yet-finished status (same recursive continuation,
same sleep-then-poll events, last-seen status unchanged), and through the
entry points a sentinel answer followed by a finished status yields the
finished status after exactly two polls. -/
theorem C8_theorem :
    (∀ (server : Nat → Response) (q cur : BerStatus) (i fuel : Nat),
      (server i).status_code ≠ 200 →
      (server i).body = .txt "App not registered in results" →
      pollLoopAwait server q cur i (fuel + 1) =
        ((pollLoopAwait server q cur (i + 1) fuel).1,
         .sleep 20 :: .postStatus q :: (pollLoopAwait server q cur (i + 1) fuel).2)) ∧
    (∀ (server : Nat → Response) (app_id : Nat) (cur : Option BerStatus) (i fuel : Nat),
      (server i).status_code ≠ 200 →
      (server i).body = .txt "App not registered in results" →
      pollLoopQuery server app_id cur i (fuel + 1) =
        ((pollLoopQuery server app_id cur (i + 1) fuel).1,
         .sleep 5 :: .postStatus (queryMsg app_id) ::
           (pollLoopQuery server app_id cur (i + 1) fuel).2)) ∧
    (∀ (server : Nat → Response) (e f : Nat) (s0 s2 : BerStatus),
      server 0 = ⟨200, .status s0⟩ →
      (server 1).status_code ≠ 200 →
      (server 1).body = .txt "App not registered in results" →
      server 2 = ⟨200, .status s2⟩ → s2.finished = true →
      invoke_and_await server 0 e (f + 1 + 1) =
        (.ok s2,
         [.postExec, .sleep 20, .postStatus { s0 with expectedNumMessages := e },
          .sleep 20, .postStatus { s0 with expectedNumMessages := e }])) ∧
    (∀ (server : Nat → Response) (a f : Nat) (u : BerStatus),
      (server 0).status_code ≠ 200 →
      (server 0).body = .txt "App not registered in results" →
      server 1 = ⟨200, .status u⟩ → u.finished = true →
      query_result server a (f + 1 + 1) =
        (.ok u, [.sleep 5, .postStatus (queryMsg a), .sleep 5, .postStatus (queryMsg a)])) := by
  refine ⟨?_, ?_, ?_, ?_⟩
  · intro server q cur i fuel hc hb
    exact pollLoopAwait_sentinel server q cur i fuel hc hb
  · intro server app_id cur i fuel hc hb
    exact pollLoopQuery_sentinel server app_id cur i fuel hc hb
  · intro server e f s0 s2 h0 hc hb h2 hf
    have hns : ¬ isNoHosts (server 0) := by simp [isNoHosts, h0]
    have hadm := admissionLoop_stop server 0 9 hns
    simp only [invoke_and_await, show (10 : Nat) = 9 + 1 from rfl, hadm, h0, parseBer]
    rw [pollLoopAwait_sentinel server _ _ 1 (f + 1) hc hb]
    rw [pollLoopAwait_finished server _ _ 2 f s2 h2 hf]
    simp
  · intro server a f u hc hb h1 hf
    unfold query_result
    rw [pollLoopQuery_sentinel server a none 0 (f + 1) hc hb]
    rw [pollLoopQuery_finished server a none 1 f u h1 hf]

/-- C8 witness: sentinel then finished, through both entry points. -/
theorem C8_witness :
    invoke_and_await srvNotReg 0 3 2 =
      (.ok ⟨42, true, 3⟩,
       [.postExec, .sleep 20, .postStatus ⟨42, false, 3⟩,
        .sleep 20, .postStatus ⟨42, false, 3⟩]) ∧
    query_result srvQNotReg 7 2 =
      (.ok ⟨7, true, 2⟩,
       [.sleep 5, .postStatus (queryMsg 7), .sleep 5, .postStatus (queryMsg 7)]) :=
  ⟨C8_theorem.2.2.1 srvNotReg 3 0 ⟨42, false, 0⟩ ⟨42, true, 3⟩
     (by decide) (by decide) (by decide) (by decide) (by decide),
   C8_theorem.2.2.2 srvQNotReg 7 0 ⟨7, true, 2⟩
     (by decide) (by decide) (by decide) (by decide)⟩

/-! ## Request-builder and preload lemmas -/

theorem getD_replicate_lt {α : Type} (n i : Nat) (a d : α) (h : i < n) :
    (List.replicate n a).getD i d = a := by
  induction n generalizing i with
  | zero => omega
  | succ n ih =>
    cases i with
    | zero => rfl
    | succ j =>
      rw [List.replicate_succ, List.getD_cons_succ]
      exact ih j (by omega)

theorem preloadRequest_get (rd : ReqTemplate) (msg_dict : MsgTemplate)
    (gid expected : Nat) (hl : List String) (i : Nat) (h : i < expected) :
    (preloadRequest rd msg_dict gid expected hl).messages[i]? =
      some { message_factory msg_dict gid with
             groupIdx := i, executedHost := hl.getD i "" } := by
  unfold preloadRequest
  rw [List.getElem?_map, List.getElem?_range h]
  rfl

/-- When the host-list length matches the expected count and the message
count does not exceed it, `invoke_wasm` POSTs exactly the padded,
placement-populated request and then either raises on a non-200 preload
answer or proceeds to the normal submission. -/
theorem invoke_wasm_preload_eq (server : Nat → Response) (msg_dict : MsgTemplate)
    (num_messages : Nat) (req_dict : Option ReqTemplate) (gid fuel : Nat)
    (rdv : ReqTemplate) (hl : List String) (expected : Nat)
    (he : expected = match msg_dict.mpi_world_size with
                     | some w => w
                     | none => num_messages)
    (hrd : rdv = match req_dict with
                 | some rd => rd
                 | none => { user := msg_dict.user, function := msg_dict.function })
    (hlen : hl.length = expected) (hnm : num_messages ≤ expected) :
    invoke_wasm server msg_dict num_messages req_dict gid (some hl) fuel =
      (if (server 0).status_code ≠ 200 then
         (.raise "RuntimeError", [.postPreload (preloadRequest rdv msg_dict gid expected hl)])
       else
         ((invoke_and_await server 1 expected fuel).1,
          .postPreload (preloadRequest rdv msg_dict gid expected hl) ::
            (invoke_and_await server 1 expected fuel).2)) := by
  simp only [invoke_wasm]
  rw [← he, ← hrd]
  have hne : ¬ hl.length ≠ expected := by simp [hlen]
  rw [if_neg hne]
  simp only [batch_exec_factory, List.length_replicate]
  rw [List.append_replicate_replicate]
  have hcount : num_messages + (expected - num_messages) = expected := by omega
  rw [hcount]
  unfold setPlacements
  rw [List.length_replicate, if_pos (by omega)]
  have hmap : (List.range expected).map (fun i =>
      { (List.replicate expected (message_factory msg_dict gid)).getD i default with
        groupIdx := i, executedHost := hl.getD i "" }) =
      (List.range expected).map (fun i =>
      { message_factory msg_dict gid with groupIdx := i, executedHost := hl.getD i "" }) :=
    List.map_congr_left (fun i hi => by
      rw [getD_replicate_lt expected i _ default (List.mem_range.mp hi)])
  rw [hmap]
  rfl

/-! ## Claim theorems: request builders and preload (C4, C6, C9, C10) -/

/-- C4: the claim says building a bound request succeeds whenever the
supplied auxiliary lists match `count`, including when `chainedIds` is
omitted — but source line 47 (`req.messages[i].chainedId =
chained_id_list[i]`) sits OUTSIDE the `if chained_id_list is not None`
guard, so omitting `chainedIds` with `count ≥ 1` raises
`TypeError: 'NoneType' object is not subscriptable` (with or without
`inputs`), while supplying both lists at the right arity succeeds. The
code contradicts its own guarded assert and its only in-repo caller
(`invoke_wasm_without_wait` omits `chained_id_list`), so this is a code
bug, not a spec error. -/
theorem C4_theorem :
    batch_exec_input_factory rdEx 7 mdEx 1 none none = .typeError ∧
    batch_exec_input_factory rdEx 7 mdEx 1 (some [[(['a'], ['b'])]]) none = .typeError ∧
    batch_exec_input_factory rdEx 7 mdEx 1 none (some [5]) =
      .ok { user := "alice", function := "work", appId := 7,
            messages := [{ message_factory mdEx 7 with chainedId := 5 }] } := by
  refine ⟨rfl, rfl, ?_⟩
  decide

/-- C6: with a host list supplied, the expected count is the template's
`mpi_world_size` when present (else the message count); a host list whose
length differs fails the assertion before any POST; and when it matches
(and the message count does not exceed it) the preloaded request POSTed
first has `expected` messages, message `i` carrying `groupIdx = i` and
`executedHost = hostList[i]` on a template copy, for every `i` below the
expected count. -/
theorem C6_theorem (server : Nat → Response) (msg_dict : MsgTemplate)
    (num_messages gid fuel : Nat) (req_dict : Option ReqTemplate) (rdv : ReqTemplate)
    (hl : List String) (expected : Nat)
    (he : expected = match msg_dict.mpi_world_size with
                     | some w => w
                     | none => num_messages)
    (hrd : rdv = match req_dict with
                 | some rd => rd
                 | none => { user := msg_dict.user, function := msg_dict.function }) :
    (hl.length ≠ expected →
      invoke_wasm server msg_dict num_messages req_dict gid (some hl) fuel =
        (.raise "AssertionError", [])) ∧
    (hl.length = expected → num_messages ≤ expected →
      ((invoke_wasm server msg_dict num_messages req_dict gid (some hl) fuel).2).head? =
        some (.postPreload (preloadRequest rdv msg_dict gid expected hl)) ∧
      (preloadRequest rdv msg_dict gid expected hl).messages.length = expected ∧
      ∀ i, i < expected →
        (preloadRequest rdv msg_dict gid expected hl).messages[i]? =
          some { message_factory msg_dict gid with
                 groupIdx := i, executedHost := hl.getD i "" }) := by
  constructor
  · intro hne
    simp only [invoke_wasm]
    rw [← he]
    rw [if_pos hne]
  · intro hlen hnm
    rw [invoke_wasm_preload_eq server msg_dict num_messages req_dict gid fuel rdv hl
      expected he hrd hlen hnm]
    refine ⟨?_, by simp [preloadRequest], fun i hi => preloadRequest_get rdv msg_dict gid expected hl i hi⟩
    by_cases hsc : (server 0).status_code ≠ 200
    · rw [if_pos hsc]; rfl
    · rw [if_neg hsc]; rfl

/-- C6 witness: `mpi_world_size = 2` with one requested message and host
list `["h0", "h1"]`: the preloaded request has 2 messages; message 1 is a
template copy pinned to host "h1" with `groupIdx = 1`; and a host list of
length 1 fails the assertion with no POST. -/
theorem C6_witness :
    ((invoke_wasm srvOk mdMpi 1 (some rdEx) 42 (some ["h0", "h1"]) 1).2).head? =
      some (.postPreload (preloadRequest rdEx mdMpi 42 2 ["h0", "h1"])) ∧
    (preloadRequest rdEx mdMpi 42 2 ["h0", "h1"]).messages.length = 2 ∧
    (preloadRequest rdEx mdMpi 42 2 ["h0", "h1"]).messages[1]? =
      some { message_factory mdMpi 42 with groupIdx := 1, executedHost := "h1" } ∧
    invoke_wasm srvOk mdMpi 1 (some rdEx) 42 (some ["h0"]) 1 =
      (.raise "AssertionError", []) := by
  have h := C6_theorem srvOk mdMpi 1 42 1 (some rdEx) rdEx ["h0", "h1"] 2 rfl rfl
  have h2 := (h.2 rfl (by omega))
  have hbad := (C6_theorem srvOk mdMpi 1 42 1 (some rdEx) rdEx ["h0"] 2 rfl rfl).1
    (by decide)
  exact ⟨h2.1, h2.2.1, h2.2.2 1 (by omega), hbad⟩

/-- C9: a non-success response to the placement-preload POST is fatal: the
call returns by raising `RuntimeError` and its whole trace is that single
preload POST — no retry of the preload and no `EXECUTE_BATCH` submission
afterwards. -/
theorem C9_theorem (server : Nat → Response) (msg_dict : MsgTemplate)
    (num_messages : Nat) (req_dict : Option ReqTemplate) (gid fuel : Nat)
    (rdv : ReqTemplate) (hl : List String) (expected : Nat)
    (he : expected = match msg_dict.mpi_world_size with
                     | some w => w
                     | none => num_messages)
    (hrd : rdv = match req_dict with
                 | some rd => rd
                 | none => { user := msg_dict.user, function := msg_dict.function })
    (hlen : hl.length = expected) (hnm : num_messages ≤ expected)
    (hbad : (server 0).status_code ≠ 200) :
    invoke_wasm server msg_dict num_messages req_dict gid (some hl) fuel =
      (.raise "RuntimeError", [.postPreload (preloadRequest rdv msg_dict gid expected hl)]) := by
  rw [invoke_wasm_preload_eq server msg_dict num_messages req_dict gid fuel rdv hl
    expected he hrd hlen hnm]
  rw [if_pos hbad]

/-- C9 witness: a preload rejected with HTTP 500 aborts the submission
with `RuntimeError` after exactly one POST. -/
theorem C9_witness :
    invoke_wasm srvDown mdMpi 1 (some rdEx) 42 (some ["h0", "h1"]) 3 =
      (.raise "RuntimeError", [.postPreload (preloadRequest rdEx mdMpi 42 2 ["h0", "h1"])]) :=
  C9_theorem srvDown mdMpi 1 (some rdEx) 42 3 rdEx ["h0", "h1"] 2
    rfl rfl rfl (by omega) (by decide)

theorem batchInputLoop_ok (req_dict : ReqTemplate) (app_id : Nat)
    (msg_dict : MsgTemplate) (num_messages : Nat) (input_list : Option (List MapData))
    (chained_id_list : Option (List Nat)) (req : BatchExecuteRequest)
    (h : batchInputLoop req_dict app_id msg_dict num_messages
      input_list chained_id_list = .ok req) :
    req.appId = app_id ∧ req.messages.length = num_messages ∧
      ∀ m ∈ req.messages, m.appId = app_id := by
  cases chained_id_list with
  | some cl =>
    by_cases hlen : cl.length ≠ num_messages
    · simp [batchInputLoop, hlen] at h
    · simp only [batchInputLoop, if_neg hlen,
        BuildResult.ok.injEq] at h
      subst h
      refine ⟨rfl, by simp, fun m hm => ?_⟩
      simp only [List.mem_map, List.mem_range] at hm
      obtain ⟨i, hi, rfl⟩ := hm
      cases input_list <;> rfl
  | none =>
    cases num_messages with
    | zero =>
      simp only [batchInputLoop, BuildResult.ok.injEq] at h
      subst h
      exact ⟨rfl, rfl, by simp⟩
    | succ k =>
      simp [batchInputLoop] at h

/-- C10: every `BatchRequest` either builder returns satisfies the batch
invariant: `batch_exec_factory` binds the injected fresh `appId` to the
request and to every one of its `count` messages; and whenever
`batch_exec_input_factory` returns a built request (rather than failing),
that request carries the caller-supplied `appId` on the request and on
every message, with exactly `count` messages. -/
theorem C10_theorem (rd : ReqTemplate) (msg_dict : MsgTemplate)
    (num_messages gid app_id : Nat) (input_list : Option (List MapData))
    (chained_id_list : Option (List Nat)) :
    ((batch_exec_factory rd msg_dict num_messages gid).appId = gid ∧
     (batch_exec_factory rd msg_dict num_messages gid).messages.length = num_messages ∧
     ∀ m ∈ (batch_exec_factory rd msg_dict num_messages gid).messages,
       m.appId = (batch_exec_factory rd msg_dict num_messages gid).appId) ∧
    (∀ req, batch_exec_input_factory rd app_id msg_dict num_messages input_list
        chained_id_list = .ok req →
      req.appId = app_id ∧ req.messages.length = num_messages ∧
        ∀ m ∈ req.messages, m.appId = req.appId) := by
  constructor
  · refine ⟨rfl, by simp [batch_exec_factory], fun m hm => ?_⟩
    have hme : m = message_factory msg_dict gid :=
      List.eq_of_mem_replicate (by simpa [batch_exec_factory] using hm)
    rw [hme]
    rfl
  · intro req hreq
    unfold batch_exec_input_factory at hreq
    have hloop : batchInputLoop rd app_id msg_dict num_messages
        input_list chained_id_list = .ok req := by
      cases input_list with
      | none => exact hreq
      | some l =>
        by_cases hlen : l.length ≠ num_messages
        · simp [hlen] at hreq
        · simpa [if_neg hlen] using hreq
    have hk := batchInputLoop_ok rd app_id msg_dict num_messages input_list
      chained_id_list req hloop
    exact ⟨hk.1, hk.2.1, fun m hm => by rw [hk.2.2 m hm, hk.1]⟩

/-- C10 witness: the invariant at concrete inputs through both builders. -/
theorem C10_witness :
    ((batch_exec_factory rdEx mdEx 2 9).appId = 9 ∧
     (batch_exec_factory rdEx mdEx 2 9).messages.length = 2 ∧
     ∀ m ∈ (batch_exec_factory rdEx mdEx 2 9).messages,
       m.appId = (batch_exec_factory rdEx mdEx 2 9).appId) ∧
    ({ user := "alice", function := "work", appId := 7,
       messages := [{ message_factory mdEx 7 with chainedId := 5 }] :
         BatchExecuteRequest }.appId = 7 ∧
     ({ user := "alice", function := "work", appId := 7,
        messages := [{ message_factory mdEx 7 with chainedId := 5 }] :
          BatchExecuteRequest }).messages.length = 1 ∧
     ∀ m ∈ ({ user := "alice", function := "work", appId := 7,
              messages := [{ message_factory mdEx 7 with chainedId := 5 }] :
                BatchExecuteRequest }).messages,
       m.appId = ({ user := "alice", function := "work", appId := 7,
                    messages := [{ message_factory mdEx 7 with chainedId := 5 }] :
                      BatchExecuteRequest }).appId) :=
  ⟨(C10_theorem rdEx mdEx 2 9 7 none none).1,
   (C10_theorem rdEx mdEx 1 9 7 none (some [5])).2
     { user := "alice", function := "work", appId := 7,
       messages := [{ message_factory mdEx 7 with chainedId := 5 }] } (by decide)⟩

end Faasmctl
